import Mathlib

/-!
Verification of the packrat interactive stash explorer (src/main.go, the
three-file repository's largest variant, which defines the Build/Explore
state machine).  The Go program is shallowly embedded: the Elm-style
`Update` function becomes a pure Lean function over an explicit `Model`
record; the external bubbles widgets (list, viewport, textinput) and the
lipgloss styling are out-of-scope collaborators per the specification and
are modelled by small faithful state records (item list with cursor
clamping, scrollable content, editable text value) with styling rendered
as plain string concatenation.  Go maps keyed by path are modelled as
association lists with replace-on-insert semantics; the synchronous
`listStashes()` calls performed inside two completion handlers are
modelled by an explicit `reload` argument to `update`.
-/

namespace Packrat

/-- A stash entry, from `type Stash struct { Ref, Message, Created string }`. -/
structure Stash where
  ref : String
  message : String
  created : String
deriving Repr, DecidableEq, Inhabited

/-- A working-tree file change, from `type FileChange struct`. -/
structure FileChange where
  path : String
  status : String
  isStaged : Bool
deriving Repr, DecidableEq, Inhabited

/-- From `func (s Stash) Title() string`. -/
def Stash.title (s : Stash) : String := s.message

/-- From `func (s Stash) Description() string`. -/
def Stash.description (s : Stash) : String := s.ref ++ " (" ++ s.created ++ ")"

/-- From `func (s Stash) FilterValue() string`. -/
def Stash.filterValue (s : Stash) : String := s.message

/-- From `func (f FileChange) Title() string`. -/
def FileChange.title (f : FileChange) : String :=
  (if f.isStaged then "● " else "○ ") ++ f.status ++ " " ++ f.path

/-- From `func (f FileChange) Description() string`. -/
def FileChange.description (f : FileChange) : String :=
  if f.isStaged then "staged" else "unstaged"

/-- From `func (f FileChange) FilterValue() string`. -/
def FileChange.filterValue (f : FileChange) : String := f.path

/-- The `Mode` enumeration (`ModeExplore`, `ModeBuild`). -/
inductive Mode
  | explore
  | build
deriving Repr, DecidableEq

/-- The `ModalType` enumeration. -/
inductive ModalType
  | none
  | deleteConfirm
  | applyConfirm
  | stashMessage
  | restoreConfirm
deriving Repr, DecidableEq

/-- Completion and input messages delivered to `Update` (the `tea.Msg`
types of the source: `tea.WindowSizeMsg`, `tea.KeyMsg`, `stashDiffMsg`,
`stashDeletedMsg`, `stashAppliedMsg`, `changedFilesMsg`, `fileDiffMsg`,
`stashCreatedMsg`, `workingDirectoryRestoredMsg`).  A Go `error` is
modelled as `Option String` (`some` text when non-nil). -/
inductive Msg
  | windowSize (width height : Int)
  | key (k : String)
  | stashDiff (ref diff : String) (err : Option String)
  | stashDeleted (ref : String) (err : Option String)
  | stashApplied (ref output : String) (err : Option String)
  | changedFiles (files : List FileChange) (err : Option String)
  | fileDiff (path diff : String) (err : Option String)
  | stashCreated (output : String) (err : Option String)
  | workingDirectoryRestored (output : String) (err : Option String)
deriving Repr, DecidableEq

/-- Commands dispatched by `Update` (the `tea.Cmd` values it returns:
`tea.Quit`, `getStashDiff`, `dropStash`, `applyStash`, `getChangedFiles`,
`getFileDiff`, `createStash`, `restoreWorkingDirectory`). -/
inductive Cmd
  | quit
  | getStashDiff (ref : String)
  | dropStash (ref : String)
  | applyStash (ref : String)
  | getChangedFiles
  | getFileDiff (file : FileChange)
  | createStash (files : List FileChange) (message : String)
  | restoreWorkingDirectory
deriving Repr, DecidableEq

/-- Lookup in a Go map modelled as an association list. -/
def mapLookup {α : Type} : List (String × α) → String → Option α
  | [], _ => Option.none
  | (k', v) :: rest, k => if k' = k then some v else mapLookup rest k

/-- Insertion into a Go map modelled as an association list: replaces the
existing binding for the key if present, otherwise appends. -/
def mapInsert {α : Type} : List (String × α) → String → α → List (String × α)
  | [], k, v => [(k, v)]
  | (k', v') :: rest, k, v =>
      if k' = k then (k, v) :: rest else (k', v') :: mapInsert rest k v

/-- Deletion from a Go map modelled as an association list. -/
def mapErase {α : Type} : List (String × α) → String → List (String × α)
  | [], _ => []
  | (k', v') :: rest, k =>
      if k' = k then mapErase rest k else (k', v') :: mapErase rest k

/-- The external bubbles `list.Model` collaborator, modelled by its items,
cursor index and dimensions.  Per the specification the widget is out of
scope; only its contract is modelled: `setItems` keeps the cursor but
clamps it into the new item range (the "list widget's own index-clamping
behavior"), and navigation keys move the cursor within bounds. -/
structure ListWidget (α : Type) where
  items : List α
  index : Nat
  width : Int
  height : Int
deriving Repr, DecidableEq

/-- The item under the cursor (`SelectedItem`), `Option.none` when out of range. -/
def ListWidget.selectedItem? {α : Type} (w : ListWidget α) : Option α :=
  w.items[w.index]?

/-- Replace the widget's items, clamping the cursor (`SetItems`). -/
def ListWidget.setItems {α : Type} (w : ListWidget α) (l : List α) : ListWidget α :=
  { w with items := l, index := min w.index (l.length - 1) }

/-- The widget's own message handling (`list.Model.Update`): up/down (and
vim j/k) navigation on key messages, no reaction to other messages. -/
def ListWidget.update {α : Type} (w : ListWidget α) (msg : Msg) : ListWidget α :=
  match msg with
  | .key k =>
      if k = "up" ∨ k = "k" then { w with index := w.index - 1 }
      else if k = "down" ∨ k = "j" then
        { w with index := min (w.index + 1) (w.items.length - 1) }
      else w
  | _ => w

/-- The external bubbles `viewport.Model` collaborator: scrollable text
content with a vertical offset and dimensions. -/
structure Viewport where
  content : String
  offset : Nat
  width : Int
  height : Int
deriving Repr, DecidableEq

/-- Replace the viewport content (`SetContent`). -/
def Viewport.setContent (v : Viewport) (s : String) : Viewport :=
  { v with content := s }

/-- Scroll to the top (`GotoTop`). -/
def Viewport.gotoTop (v : Viewport) : Viewport :=
  { v with offset := 0 }

/-- The viewport's own message handling: up/down scrolling on key
messages, no reaction to other messages. -/
def Viewport.update (v : Viewport) (msg : Msg) : Viewport :=
  match msg with
  | .key k =>
      if k = "up" then { v with offset := v.offset - 1 }
      else if k = "down" then { v with offset := v.offset + 1 }
      else v
  | _ => v

/-- The external bubbles `textinput.Model` collaborator: an editable text
value with a focus flag. -/
structure TextInput where
  value : String
  focused : Bool
deriving Repr, DecidableEq

/-- Replace the input value (`SetValue`). -/
def TextInput.setValue (t : TextInput) (s : String) : TextInput :=
  { t with value := s }

/-- Focus the input (`Focus`). -/
def TextInput.focus (t : TextInput) : TextInput :=
  { t with focused := true }

/-- The text input's own key handling: printable single-character keys are
appended, backspace deletes the last character, other keys are ignored. -/
def TextInput.update (t : TextInput) (k : String) : TextInput :=
  if k = "backspace" then { t with value := t.value.dropRight 1 }
  else if k.length = 1 then { t with value := t.value ++ k }
  else t

/-- The application `model` struct of the Build/Explore variant. -/
structure Model where
  width : Int
  height : Int
  loading : Bool
  err : Option String
  activeModal : ModalType
  mode : Mode
  stashList : ListWidget Stash
  viewport : Viewport
  diff : String
  selectedRef : String
  fileList : ListWidget FileChange
  selectedFiles : List (String × FileChange)
  expandedFiles : List (String × Bool)
  fileDiffs : List (String × String)
  buildViewport : Viewport
  stashInput : TextInput
deriving Repr, DecidableEq

/-- The `initialModel` constructor.  The result of the startup
`listStashes()` call is passed in as `(stashes, err)`; a bootstrap
failure is stored in `err` exactly as in the source. -/
def initialModel (stashes : List Stash) (err : Option String) : Model :=
  { width := 0
    height := 0
    loading := false
    err := err
    activeModal := ModalType.none
    mode := Mode.explore
    stashList := { items := stashes, index := 0, width := 30, height := 10 }
    viewport := { content := "", offset := 0, width := 80, height := 20 }
    diff := ""
    selectedRef := ""
    fileList := { items := [], index := 0, width := 30, height := 10 }
    selectedFiles := []
    expandedFiles := []
    fileDiffs := []
    buildViewport := { content := "", offset := 0, width := 80, height := 20 }
    stashInput := { value := "", focused := true } }

/-- The `buildCollapsibleDiffsView` rendering of the Build-mode right
pane.  The source iterates the `selectedFiles` map keys (Go map order);
here the association-list order is used. -/
def buildCollapsibleDiffsView (m : Model) : String :=
  if m.selectedFiles.length = 0 then
    "No files selected.\n\nSelect files from the list to see their diffs here.\n[Enter] Select file  [Space] Expand/collapse diff  [s] Create stash"
  else
    let header := "Selected files: " ++ toString m.selectedFiles.length ++ "\n\n"
    let body := String.join (m.selectedFiles.map (fun p =>
      let path := p.1
      let file := p.2
      let expanded := (mapLookup m.expandedFiles path).getD false
      let indicator := if expanded then "▼" else "▶"
      let statusStr := if file.isStaged then "staged" else "unstaged"
      let line := indicator ++ " " ++ path ++ " (" ++ statusStr ++ ")\n"
      if expanded then
        line ++ (match mapLookup m.fileDiffs path with
                 | some d => d
                 | Option.none => "  Loading diff...\n") ++ "\n"
      else line))
    header ++ body

/-- The `tea.WindowSizeMsg` arm of `Update`: recompute the pane and
widget dimensions for both modes. -/
def handleWindowSize (m : Model) (w h : Int) : Model :=
  let borderChrome : Int := 4
  let listPaneWidth : Int := 75
  let listContentWidth := listPaneWidth - borderChrome
  let rightPaneWidth := w - listPaneWidth
  let viewportContentWidth := rightPaneWidth - borderChrome
  let totalContentHeight := h - borderChrome
  let headerAndSpacing : Int := 2
  let viewportHeight0 := totalContentHeight - headerAndSpacing
  let viewportHeight := if viewportHeight0 < 0 then 0 else viewportHeight0
  { m with
      width := w
      height := h
      stashList := { m.stashList with width := listContentWidth, height := totalContentHeight }
      viewport := { m.viewport with width := viewportContentWidth, height := viewportHeight }
      fileList := { m.fileList with width := listContentWidth, height := totalContentHeight }
      buildViewport := { m.buildViewport with width := viewportContentWidth, height := viewportHeight } }

/-- The Explore-mode default key handling of `Update` (enter / d / a). -/
def handleExploreKey (m : Model) (k : String) : Model × List Cmd × Bool :=
  if k = "enter" then
    match m.stashList.selectedItem? with
    | some sel => ({ m with loading := true }, [Cmd.getStashDiff sel.ref], true)
    | Option.none => (m, [], false)
  else if k = "d" then
    match m.stashList.selectedItem? with
    | some sel =>
        ({ m with selectedRef := sel.ref, activeModal := ModalType.deleteConfirm }, [], false)
    | Option.none => (m, [], false)
  else if k = "a" then
    match m.stashList.selectedItem? with
    | some sel =>
        ({ m with selectedRef := sel.ref, activeModal := ModalType.applyConfirm }, [], false)
    | Option.none => (m, [], false)
  else (m, [], false)

/-- The enter/space handling of `Update` on the highlighted Build-mode
file `sel`: when the path is already selected, space toggles expansion
and enter deselects (removing the path from all three maps); when it is
not selected, it is inserted into the Selection and Expansion sets and a
diff fetch for it is dispatched. -/
def handleBuildSelect (m : Model) (k : String) (sel : FileChange) :
    Model × List Cmd × Bool :=
  let key := sel.path
  match mapLookup m.selectedFiles key with
  | some _ =>
      if k = " " then
        let flipped := !((mapLookup m.expandedFiles key).getD false)
        let m1 := { m with expandedFiles := mapInsert m.expandedFiles key flipped }
        let vp := (m1.buildViewport.setContent (buildCollapsibleDiffsView m1)).gotoTop
        ({ m1 with buildViewport := vp }, [], false)
      else if k = "enter" then
        let m1 := { m with
          selectedFiles := mapErase m.selectedFiles key
          expandedFiles := mapErase m.expandedFiles key
          fileDiffs := mapErase m.fileDiffs key }
        let vp := (m1.buildViewport.setContent (buildCollapsibleDiffsView m1)).gotoTop
        ({ m1 with buildViewport := vp }, [], false)
      else (m, [], false)
  | Option.none =>
      ({ m with
          selectedFiles := mapInsert m.selectedFiles key sel
          expandedFiles := mapInsert m.expandedFiles key false },
       [Cmd.getFileDiff sel], true)

/-- The Build-mode default key handling of `Update` (enter / space on the
highlighted file, s, r). -/
def handleBuildKey (m : Model) (k : String) : Model × List Cmd × Bool :=
  if k = "enter" ∨ k = " " then
    match m.fileList.selectedItem? with
    | some sel => handleBuildSelect m k sel
    | Option.none => (m, [], false)
  else if k = "s" ∨ k = "S" then
    if m.selectedFiles.length > 0 then
      ({ m with stashInput := m.stashInput.focus, activeModal := ModalType.stashMessage },
       [], false)
    else (m, [], false)
  else if k = "r" ∨ k = "R" then
    ({ m with activeModal := ModalType.restoreConfirm }, [], false)
  else (m, [], false)

/-- The `tea.KeyMsg` arm of `Update`: the quit keys first, then the mode
toggle, then the modal handlers, then the mode-specific defaults; the Go
switch-case order is preserved exactly. -/
def handleKey (m : Model) (k : String) : Model × List Cmd × Bool :=
  if k = "ctrl+c" ∨ k = "q" then
    if m.activeModal ≠ ModalType.none then
      ({ m with activeModal := ModalType.none }, [], false)
    else
      (m, [Cmd.quit], true)
  else if k = "tab" then
    match m.mode with
    | Mode.explore => ({ m with mode := Mode.build }, [Cmd.getChangedFiles], true)
    | Mode.build =>
        ({ m with
            mode := Mode.explore
            selectedFiles := []
            expandedFiles := []
            fileDiffs := [] },
         [], false)
  else if m.activeModal = ModalType.deleteConfirm then
    if k = "y" ∨ k = "Y" then
      ({ m with activeModal := ModalType.none }, [Cmd.dropStash m.selectedRef], true)
    else if k = "n" ∨ k = "N" ∨ k = "esc" then
      ({ m with activeModal := ModalType.none }, [], false)
    else (m, [], false)
  else if m.activeModal = ModalType.applyConfirm then
    if k = "y" ∨ k = "Y" then
      ({ m with activeModal := ModalType.none, loading := true },
       [Cmd.applyStash m.selectedRef], true)
    else if k = "n" ∨ k = "N" ∨ k = "esc" then
      ({ m with activeModal := ModalType.none }, [], false)
    else (m, [], false)
  else if m.activeModal = ModalType.stashMessage then
    if k = "enter" then
      let message := m.stashInput.value
      if message ≠ "" then
        ({ m with
            activeModal := ModalType.none
            loading := true
            stashInput := m.stashInput.setValue "" },
         [Cmd.createStash (m.selectedFiles.map Prod.snd) message], true)
      else (m, [], false)
    else if k = "esc" then
      ({ m with activeModal := ModalType.none, stashInput := m.stashInput.setValue "" },
       [], false)
    else
      ({ m with stashInput := m.stashInput.update k }, [], true)
  else if m.activeModal = ModalType.restoreConfirm then
    if k = "y" ∨ k = "Y" then
      ({ m with activeModal := ModalType.none, loading := true },
       [Cmd.restoreWorkingDirectory], true)
    else if k = "n" ∨ k = "N" ∨ k = "esc" then
      ({ m with activeModal := ModalType.none }, [], false)
    else (m, [], false)
  else
    match m.mode with
    | Mode.explore => handleExploreKey m k
    | Mode.build => handleBuildKey m k

/-- The `stashDiffMsg` arm of `Update`. -/
def handleStashDiff (m : Model) (d : String) (err : Option String) : Model :=
  let newDiff := match err with
    | some e => "Error loading diff: " ++ e
    | Option.none => d
  { m with
      loading := false
      diff := newDiff
      viewport := (m.viewport.setContent newDiff).gotoTop }

/-- The `stashDeletedMsg` arm of `Update`.  On success the handler calls
`listStashes()` synchronously; its result is the `reload` pair. -/
def handleStashDeleted (m : Model) (err : Option String)
    (reload : List Stash × Option String) : Model × List Cmd :=
  match err with
  | some e => ({ m with err := some e }, [])
  | Option.none =>
      let sl := m.stashList.setItems reload.1
      let step :=
        if sl.items.length > 0 then
          (({ m with stashList := sl },
            [Cmd.getStashDiff ((sl.selectedItem?.getD default).ref)]) :
            Model × List Cmd)
        else
          ({ m with stashList := sl, viewport := m.viewport.setContent "(no stashes)" },
           [])
      match reload.2 with
      | some e =>
          ({ step.1 with viewport := step.1.viewport.setContent ("Error reloading stashes: " ++ e) },
           step.2)
      | Option.none => step

/-- The `stashAppliedMsg` arm of `Update`. -/
def handleStashApplied (m : Model) (out : String) (err : Option String) : Model :=
  let c := match err with
    | some _ => "Error applying stash:\n\n" ++ out
    | Option.none => "Stash applied successfully!\n\n" ++ out
  { m with loading := false, viewport := (m.viewport.setContent c).gotoTop }

/-- The `changedFilesMsg` arm of `Update`. -/
def handleChangedFiles (m : Model) (files : List FileChange) (err : Option String) : Model :=
  match err with
  | some e => { m with err := some e }
  | Option.none => { m with fileList := m.fileList.setItems files }

/-- The `fileDiffMsg` arm of `Update`: the diff (or error text) is written
into the Diff Cache under the event's own path, unconditionally. -/
def handleFileDiff (m : Model) (path d : String) (err : Option String) : Model :=
  let text := match err with
    | some e => "Error loading diff: " ++ e
    | Option.none => d
  let m1 := { m with fileDiffs := mapInsert m.fileDiffs path text }
  let vp := (m1.buildViewport.setContent (buildCollapsibleDiffsView m1)).gotoTop
  { m1 with buildViewport := vp }

/-- The `stashCreatedMsg` arm of `Update`.  On success the handler calls
`listStashes()` synchronously; its result is the `reload` pair. -/
def handleStashCreated (m : Model) (out : String) (err : Option String)
    (reload : List Stash × Option String) : Model × List Cmd × Bool :=
  match err with
  | some _ =>
      ({ m with
          loading := false
          buildViewport := m.buildViewport.setContent ("Error creating stash:\n\n" ++ out) },
       [], false)
  | Option.none =>
      let m1 := { m with
        loading := false
        selectedFiles := []
        expandedFiles := []
        fileDiffs := []
        mode := Mode.explore }
      match reload.2 with
      | Option.none =>
          let m2 := { m1 with stashList := m1.stashList.setItems reload.1 }
          match reload.1 with
          | [] => (m2, [], false)
          | s :: _ => (m2, [Cmd.getStashDiff s.ref], true)
      | some _ => (m1, [], false)

/-- The `workingDirectoryRestoredMsg` arm of `Update`. -/
def handleWorkingDirectoryRestored (m : Model) (out : String) (err : Option String) :
    Model × List Cmd × Bool :=
  match err with
  | some _ =>
      ({ m with
          loading := false
          buildViewport := m.buildViewport.setContent ("Error restoring working directory:\n\n" ++ out) },
       [], false)
  | Option.none =>
      let vp := (m.buildViewport.setContent
        ("Working directory restored successfully!\n\n" ++ out)).gotoTop
      ({ m with
          loading := false
          selectedFiles := []
          expandedFiles := []
          fileDiffs := []
          buildViewport := vp },
       [Cmd.getChangedFiles], true)

/-- One step of the `Update` function before the trailing widget-update
block.  Returns the new model, the dispatched commands, and whether the
source returned early (skipping the widget-update block at the bottom of
`Update`).  `reload` is the result of the synchronous `listStashes()`
call that the `stashDeletedMsg` and `stashCreatedMsg` handlers perform. -/
def updateCore (m : Model) (msg : Msg) (reload : List Stash × Option String) :
    Model × List Cmd × Bool :=
  match msg with
  | .windowSize w h => (handleWindowSize m w h, [], false)
  | .key k => handleKey m k
  | .stashDiff _ d err => (handleStashDiff m d err, [], false)
  | .stashDeleted _ err =>
      let step := handleStashDeleted m err reload
      (step.1, step.2, false)
  | .stashApplied _ out err => (handleStashApplied m out err, [], false)
  | .changedFiles files err => (handleChangedFiles m files err, [], false)
  | .fileDiff path d err => (handleFileDiff m path d err, [], false)
  | .stashCreated out err => handleStashCreated m out err reload
  | .workingDirectoryRestored out err => handleWorkingDirectoryRestored m out err

/-- The widget-update block at the bottom of `Update`: when no modal is
active the mode's viewport and list receive the message. -/
def applyWidgets (m : Model) (msg : Msg) : Model :=
  if m.activeModal = ModalType.none then
    match m.mode with
    | Mode.explore =>
        { m with viewport := m.viewport.update msg, stashList := m.stashList.update msg }
    | Mode.build =>
        { m with buildViewport := m.buildViewport.update msg, fileList := m.fileList.update msg }
  else m

/-- The full `Update` function: the handler switch, then (unless the
handler returned early) the widget-update block on the mutated model. -/
def update (m : Model) (msg : Msg) (reload : List Stash × Option String) :
    Model × List Cmd :=
  match updateCore m msg reload with
  | (m1, cs, true) => (m1, cs)
  | (m1, cs, false) => (applyWidgets m1 msg, cs)

/-- Characters treated as whitespace by Go's `strings.TrimSpace` for the
ASCII paths that occur in porcelain status lines. -/
def isSpaceChar (c : Char) : Bool :=
  c = ' ' ∨ c = '\t' ∨ c = '\n' ∨ c = '\r'

/-- Go's `strings.TrimSpace`, modelled over the character list. -/
def strTrim (s : String) : String :=
  ⟨((s.data.dropWhile isSpaceChar).reverse.dropWhile isSpaceChar).reverse⟩

/-- The Go slice `s[i:j]` over characters (porcelain status columns are
ASCII, so byte and character indexing coincide). -/
def strSlice (s : String) (i j : Nat) : String :=
  ⟨(s.data.drop i).take (j - i)⟩

/-- The Go slice `s[i:]`. -/
def strFrom (s : String) (i : Nat) : String :=
  ⟨s.data.drop i⟩

/-- Splitting a character list at every pipe character. -/
def splitPipe : List Char → List (List Char)
  | [] => [[]]
  | c :: rest =>
      let r := splitPipe rest
      if c = '|' then [] :: r
      else
        match r with
        | h :: t => (c :: h) :: t
        | [] => [[c]]

/-- Go's `strings.SplitN(s, "|", 3)`: at most three parts, the third part
keeping any further separators. -/
def splitN3 (s : String) : List String :=
  match (splitPipe s.data).map (fun l => (⟨l⟩ : String)) with
  | a :: b :: c :: rest => [a, b, String.intercalate "|" (c :: rest)]
  | parts => parts

/-- The record-parsing loop of `listStashes`: each line is split into at
most three pipe-separated fields, and a line with fewer than three fields
is silently skipped. -/
def parseStashLines (lines : List String) : List Stash :=
  lines.foldr (fun line acc =>
    match splitN3 line with
    | [a, b, c] => Stash.mk a b c :: acc
    | _ => acc) []

/-- The per-line parsing of `listChangedFiles` over a `git status
--porcelain` line: lines shorter than four characters are skipped; the
first column is the staged status, the second the unstaged status, and
the path starts at offset three; a staged record is emitted when the
first column is neither blank nor "?", an unstaged record when the second
column is not blank. -/
def parseStatusLine (line : String) : List FileChange :=
  if line.length < 4 then []
  else
    let stagedStatus := strSlice line 0 1
    let unstagedStatus := strSlice line 1 2
    let path := strTrim (strFrom line 3)
    (if stagedStatus ≠ " " ∧ stagedStatus ≠ "?" then
      [FileChange.mk path stagedStatus true] else []) ++
    (if unstagedStatus ≠ " " then
      [FileChange.mk path unstagedStatus false] else [])

/-- The scanning loop of `listChangedFiles` over all output lines. -/
def listChangedFiles (lines : List String) : List FileChange :=
  lines.foldr (fun line acc => parseStatusLine line ++ acc) []

/-- The `restoreWorkingDirectory` command body: the discard phase (`git
restore .`) runs first; if it fails its output and error are reported and
the clean phase never runs; otherwise the clean phase (`git clean -f -d`)
runs and the combined output is reported with the clean phase's error.
The two external command results are passed in as (output, error) pairs. -/
def restoreWorkingDirectory (restoreOut : String) (restoreErr : Option String)
    (cleanOut : String) (cleanErr : Option String) : Msg :=
  match restoreErr with
  | some e => Msg.workingDirectoryRestored restoreOut (some e)
  | Option.none => Msg.workingDirectoryRestored (restoreOut ++ cleanOut) cleanErr

/-- The `renderModal` function (lipgloss styling rendered as the bare
content, the text input rendered as its value). -/
def renderModal (m : Model) : String :=
  match m.activeModal with
  | ModalType.deleteConfirm => "Delete " ++ m.selectedRef ++ "?\n\n[y] Yes   [n] No"
  | ModalType.applyConfirm => "Apply " ++ m.selectedRef ++ "?\n\n[y] Yes   [n] No"
  | ModalType.stashMessage =>
      "Create Stash\n\n" ++ m.stashInput.value ++ "\n\n[Enter] Save   [Esc] Cancel"
  | ModalType.restoreConfirm =>
      "⚠️  WARNING ⚠️\n\nThis will restore your working directory to a clean state.\nAll staged and unstaged changes will be LOST!\nUntracked files will be DELETED!\n\nAre you sure?\n\n[y] Yes   [n] No"
  | ModalType.none => ""

/-- The non-error body of `View`: the centered modal when one is active,
otherwise the two panes of the current mode (pane joins and borders, an
out-of-scope styling concern, rendered as plain concatenation; a list
renders its item titles, a viewport its content). -/
def viewBody (m : Model) : String :=
  if m.activeModal ≠ ModalType.none then renderModal m
  else
    match m.mode with
    | Mode.explore =>
        let leftPane := String.intercalate "\n" (m.stashList.items.map Stash.title)
        let header := "[Enter] Show stash  [a] Apply  [d] Drop  [Tab] Build Mode  [q] Quit  [↑/↓] Scroll"
        leftPane ++ header ++ "\n\n" ++ m.viewport.content
    | Mode.build =>
        let leftPane := String.intercalate "\n" (m.fileList.items.map FileChange.title)
        let helpText := "[Enter] Select  [Space] Expand/Collapse  [s] Save (" ++
          toString m.selectedFiles.length ++ ")  [r] Restore  [Tab] Explore  [q] Quit"
        leftPane ++ helpText ++ "\n\n" ++ m.buildViewport.content

/-- The `View` function: when an error is stored, only the error line is
rendered in place of the whole UI; otherwise the normal body. -/
def view (m : Model) : String :=
  match m.err with
  | some e => "Error: " ++ e ++ "\n"
  | Option.none => viewBody m

/-- Fixture: a stash entry. -/
def sampleStash : Stash := Stash.mk "stash@{0}" "wip" "2 hours ago"

/-- Fixture: a second stash entry. -/
def sampleStash1 : Stash := Stash.mk "stash@{1}" "older" "3 days ago"

/-- Fixture: an unstaged file change. -/
def sampleFile : FileChange := FileChange.mk "f.go" "M" false

/-- Fixture: the model after a successful startup list load of two stashes. -/
def mBase : Model := initialModel [sampleStash, sampleStash1] Option.none

/-- Fixture: a Build-mode model with one selected, collapsed file whose
diff is cached. -/
def mBuildSel : Model :=
  { mBase with
      mode := Mode.build
      fileList := { items := [sampleFile], index := 0, width := 30, height := 10 }
      selectedFiles := [("f.go", sampleFile)]
      expandedFiles := [("f.go", false)]
      fileDiffs := [("f.go", "diff-f")] }

/-- Fixture: the Build-mode model with the stash-message modal open and a
non-empty message typed. -/
def mMsgModal : Model :=
  { mBuildSel with
      activeModal := ModalType.stashMessage
      stashInput := { value := "my stash", focused := true } }

/-- Fixture: the Build-mode model with the stash-message modal open and an
empty message. -/
def mMsgModalEmpty : Model :=
  { mBuildSel with activeModal := ModalType.stashMessage }

/-- Fixture: the Explore-mode model with the delete-confirm modal open. -/
def mDelModal : Model :=
  { mBase with activeModal := ModalType.deleteConfirm, selectedRef := "stash@{0}" }

/-- The co-invariant of the Expansion Set with the Selection Set: every
expanded path is a selected path. -/
def ExpSubsetSel (m : Model) : Prop :=
  ∀ p : String, (mapLookup m.expandedFiles p).isSome = true →
    (mapLookup m.selectedFiles p).isSome = true

theorem mapLookup_insert_self {α : Type} (m : List (String × α)) (k : String) (v : α) :
    mapLookup (mapInsert m k v) k = some v := by
  induction m with
  | nil => simp [mapInsert, mapLookup]
  | cons hd tl ih =>
      obtain ⟨k', v'⟩ := hd
      by_cases h : k' = k
      · simp [mapInsert, mapLookup, h]
      · simp [mapInsert, mapLookup, h, ih]

theorem mapLookup_insert_ne {α : Type} (m : List (String × α)) (k k' : String) (v : α)
    (h : k' ≠ k) : mapLookup (mapInsert m k v) k' = mapLookup m k' := by
  induction m with
  | nil => simp [mapInsert, mapLookup, Ne.symm h]
  | cons hd tl ih =>
      obtain ⟨k₀, v₀⟩ := hd
      by_cases h₀ : k₀ = k
      · subst h₀
        simp [mapInsert, mapLookup, Ne.symm h]
      · simp only [mapInsert, if_neg h₀, mapLookup]
        by_cases h₁ : k₀ = k'
        · simp [h₁]
        · simp [h₁, ih]

theorem mapLookup_erase_self {α : Type} (m : List (String × α)) (k : String) :
    mapLookup (mapErase m k) k = Option.none := by
  induction m with
  | nil => simp [mapErase, mapLookup]
  | cons hd tl ih =>
      obtain ⟨k₀, v₀⟩ := hd
      by_cases h₀ : k₀ = k
      · simp [mapErase, h₀, ih]
      · simp [mapErase, mapLookup, h₀, ih]

theorem mapLookup_erase_ne {α : Type} (m : List (String × α)) (k k' : String)
    (h : k' ≠ k) : mapLookup (mapErase m k) k' = mapLookup m k' := by
  induction m with
  | nil => simp [mapErase, mapLookup]
  | cons hd tl ih =>
      obtain ⟨k₀, v₀⟩ := hd
      by_cases h₀ : k₀ = k
      · subst h₀
        simp [mapErase, mapLookup, Ne.symm h, ih]
      · simp only [mapErase, if_neg h₀, mapLookup]
        by_cases h₁ : k₀ = k'
        · simp [h₁]
        · simp [h₁, ih]

theorem listWidget_update_nonNav {α : Type} (w : ListWidget α) (k : String)
    (h1 : k ≠ "up") (h2 : k ≠ "k") (h3 : k ≠ "down") (h4 : k ≠ "j") :
    w.update (Msg.key k) = w := by
  simp [ListWidget.update, h1, h2, h3, h4]

theorem viewport_update_nonNav (v : Viewport) (k : String)
    (h1 : k ≠ "up") (h3 : k ≠ "down") :
    v.update (Msg.key k) = v := by
  simp [Viewport.update, h1, h3]

theorem applyWidgets_not_key (m : Model) (msg : Msg) (h : ∀ k, msg ≠ Msg.key k) :
    applyWidgets m msg = m := by
  unfold applyWidgets
  split
  · split <;> (cases msg <;> first | rfl | exact absurd rfl (h _))
  · rfl

theorem applyWidgets_key_nonNav (m : Model) (k : String)
    (h1 : k ≠ "up") (h2 : k ≠ "k") (h3 : k ≠ "down") (h4 : k ≠ "j") :
    applyWidgets m (Msg.key k) = m := by
  unfold applyWidgets
  split
  · split
    · rw [listWidget_update_nonNav _ _ h1 h2 h3 h4, viewport_update_nonNav _ _ h1 h3]
    · rw [listWidget_update_nonNav _ _ h1 h2 h3 h4, viewport_update_nonNav _ _ h1 h3]
  · rfl

theorem applyWidgets_selectedFiles (m : Model) (msg : Msg) :
    (applyWidgets m msg).selectedFiles = m.selectedFiles := by
  unfold applyWidgets
  split
  · split <;> rfl
  · rfl

theorem applyWidgets_expandedFiles (m : Model) (msg : Msg) :
    (applyWidgets m msg).expandedFiles = m.expandedFiles := by
  unfold applyWidgets
  split
  · split <;> rfl
  · rfl

theorem applyWidgets_fileDiffs (m : Model) (msg : Msg) :
    (applyWidgets m msg).fileDiffs = m.fileDiffs := by
  unfold applyWidgets
  split
  · split <;> rfl
  · rfl

theorem applyWidgets_err (m : Model) (msg : Msg) :
    (applyWidgets m msg).err = m.err := by
  unfold applyWidgets
  split
  · split <;> rfl
  · rfl

theorem applyWidgets_mode (m : Model) (msg : Msg) :
    (applyWidgets m msg).mode = m.mode := by
  unfold applyWidgets
  split
  · split <;> rfl
  · rfl

theorem applyWidgets_activeModal (m : Model) (msg : Msg) :
    (applyWidgets m msg).activeModal = m.activeModal := by
  unfold applyWidgets
  split
  · split <;> rfl
  · rfl

theorem expSub_insert_both {β γ : Type} {e : List (String × β)} {s : List (String × γ)}
    {k : String} {b : β} {v : γ}
    (h : ∀ p, (mapLookup e p).isSome = true → (mapLookup s p).isSome = true) :
    ∀ p, (mapLookup (mapInsert e k b) p).isSome = true →
      (mapLookup (mapInsert s k v) p).isSome = true := by
  intro p hp
  by_cases hpk : p = k
  · subst hpk
    simp [mapLookup_insert_self]
  · rw [mapLookup_insert_ne _ _ _ _ hpk] at hp
    rw [mapLookup_insert_ne _ _ _ _ hpk]
    exact h p hp

theorem expSub_insert_exp {β γ : Type} {e : List (String × β)} {s : List (String × γ)}
    {k : String} {b : β}
    (h : ∀ p, (mapLookup e p).isSome = true → (mapLookup s p).isSome = true)
    (hk : (mapLookup s k).isSome = true) :
    ∀ p, (mapLookup (mapInsert e k b) p).isSome = true →
      (mapLookup s p).isSome = true := by
  intro p hp
  by_cases hpk : p = k
  · subst hpk
    exact hk
  · rw [mapLookup_insert_ne _ _ _ _ hpk] at hp
    exact h p hp

theorem expSub_erase_both {β γ : Type} {e : List (String × β)} {s : List (String × γ)}
    {k : String}
    (h : ∀ p, (mapLookup e p).isSome = true → (mapLookup s p).isSome = true) :
    ∀ p, (mapLookup (mapErase e k) p).isSome = true →
      (mapLookup (mapErase s k) p).isSome = true := by
  intro p hp
  by_cases hpk : p = k
  · subst hpk
    rw [mapLookup_erase_self] at hp
    exact Bool.noConfusion hp
  · rw [mapLookup_erase_ne _ _ _ hpk] at hp
    rw [mapLookup_erase_ne _ _ _ hpk]
    exact h p hp

theorem expSubsetSel_handleExploreKey (m : Model) (k : String)
    (h : ExpSubsetSel m) : ExpSubsetSel (handleExploreKey m k).1 := by
  unfold handleExploreKey
  repeat' split
  all_goals exact h

theorem expSubsetSel_handleBuildSelect (m : Model) (k : String) (sel : FileChange)
    (h : ExpSubsetSel m) : ExpSubsetSel (handleBuildSelect m k sel).1 := by
  have h' : ∀ p, (mapLookup m.expandedFiles p).isSome = true →
      (mapLookup m.selectedFiles p).isSome = true := h
  unfold handleBuildSelect
  dsimp only
  split
  · split
    · refine expSub_insert_exp h' ?_
      simp_all
    · split
      · exact expSub_erase_both h'
      · exact h'
  · exact expSub_insert_both h'

theorem expSubsetSel_handleBuildKey (m : Model) (k : String)
    (h : ExpSubsetSel m) : ExpSubsetSel (handleBuildKey m k).1 := by
  unfold handleBuildKey
  repeat' split
  all_goals first
    | exact h
    | exact expSubsetSel_handleBuildSelect m k _ h

theorem expSubsetSel_handleKey (m : Model) (k : String)
    (h : ExpSubsetSel m) : ExpSubsetSel (handleKey m k).1 := by
  have h' : ∀ p, (mapLookup m.expandedFiles p).isSome = true →
      (mapLookup m.selectedFiles p).isSome = true := h
  unfold handleKey
  dsimp only
  repeat' split
  all_goals first
    | exact h'
    | exact fun p hp => Bool.noConfusion hp
    | exact expSubsetSel_handleExploreKey m k h
    | exact expSubsetSel_handleBuildKey m k h

theorem expSubsetSel_handleStashDeleted (m : Model) (err : Option String)
    (reload : List Stash × Option String)
    (h : ExpSubsetSel m) : ExpSubsetSel (handleStashDeleted m err reload).1 := by
  unfold handleStashDeleted
  dsimp only
  repeat' split
  all_goals exact h

theorem expSubsetSel_handleStashCreated (m : Model) (out : String) (err : Option String)
    (reload : List Stash × Option String)
    (h : ExpSubsetSel m) : ExpSubsetSel (handleStashCreated m out err reload).1 := by
  unfold handleStashCreated
  dsimp only
  repeat' split
  all_goals first
    | exact h
    | exact fun p hp => Bool.noConfusion hp

theorem expSubsetSel_handleWorkingDirectoryRestored (m : Model) (out : String)
    (err : Option String)
    (h : ExpSubsetSel m) : ExpSubsetSel (handleWorkingDirectoryRestored m out err).1 := by
  unfold handleWorkingDirectoryRestored
  dsimp only
  repeat' split
  all_goals first
    | exact h
    | exact fun p hp => Bool.noConfusion hp

theorem expSubsetSel_handleChangedFiles (m : Model) (files : List FileChange)
    (err : Option String)
    (h : ExpSubsetSel m) : ExpSubsetSel (handleChangedFiles m files err) := by
  unfold handleChangedFiles
  repeat' split
  all_goals exact h

theorem expSubsetSel_updateCore (m : Model) (msg : Msg) (r : List Stash × Option String)
    (h : ExpSubsetSel m) : ExpSubsetSel (updateCore m msg r).1 := by
  cases msg with
  | windowSize w hh => exact h
  | key k => exact expSubsetSel_handleKey m k h
  | stashDiff a b e => exact h
  | stashDeleted a e => exact expSubsetSel_handleStashDeleted m e r h
  | stashApplied a b e => exact h
  | changedFiles a e => exact expSubsetSel_handleChangedFiles m a e h
  | fileDiff a b e => exact h
  | stashCreated a e => exact expSubsetSel_handleStashCreated m a e r h
  | workingDirectoryRestored a e => exact expSubsetSel_handleWorkingDirectoryRestored m a e h

theorem expSubsetSel_update (m : Model) (msg : Msg) (r : List Stash × Option String)
    (h : ExpSubsetSel m) : ExpSubsetSel (update m msg r).1 := by
  have hc := expSubsetSel_updateCore m msg r h
  unfold update
  split
  · next a b heq =>
      rw [heq] at hc
      exact hc
  · next a b heq =>
      rw [heq] at hc
      intro p hp
      rw [applyWidgets_expandedFiles] at hp
      rw [applyWidgets_selectedFiles]
      exact hc p hp

theorem handleExploreKey_err (m : Model) (k : String) :
    (handleExploreKey m k).1.err = m.err := by
  unfold handleExploreKey
  repeat' split
  all_goals rfl

theorem handleBuildSelect_err (m : Model) (k : String) (sel : FileChange) :
    (handleBuildSelect m k sel).1.err = m.err := by
  unfold handleBuildSelect
  dsimp only
  split
  · split
    · rfl
    · split
      · rfl
      · rfl
  · rfl

theorem handleBuildKey_err (m : Model) (k : String) :
    (handleBuildKey m k).1.err = m.err := by
  unfold handleBuildKey
  repeat' split
  all_goals first
    | rfl
    | exact handleBuildSelect_err m k _

theorem handleKey_err (m : Model) (k : String) :
    (handleKey m k).1.err = m.err := by
  unfold handleKey
  dsimp only
  repeat' split
  all_goals first
    | rfl
    | exact handleExploreKey_err m k
    | exact handleBuildKey_err m k

theorem handleStashDeleted_ok_err (m : Model) (reload : List Stash × Option String) :
    (handleStashDeleted m Option.none reload).1.err = m.err := by
  unfold handleStashDeleted
  dsimp only
  repeat' split
  all_goals rfl

theorem handleStashCreated_err (m : Model) (out : String) (err : Option String)
    (reload : List Stash × Option String) :
    (handleStashCreated m out err reload).1.err = m.err := by
  unfold handleStashCreated
  dsimp only
  repeat' split
  all_goals rfl

theorem handleWorkingDirectoryRestored_err (m : Model) (out : String) (err : Option String) :
    (handleWorkingDirectoryRestored m out err).1.err = m.err := by
  unfold handleWorkingDirectoryRestored
  cases err <;> rfl

theorem err_isSome_updateCore (m : Model) (msg : Msg) (r : List Stash × Option String)
    (h : m.err.isSome = true) : ((updateCore m msg r).1).err.isSome = true := by
  cases msg with
  | windowSize w hh => exact h
  | key k =>
      show ((handleKey m k).1).err.isSome = true
      rw [handleKey_err]
      exact h
  | stashDiff a b e => exact h
  | stashDeleted a e =>
      cases e with
      | none =>
          show ((handleStashDeleted m Option.none r).1).err.isSome = true
          rw [handleStashDeleted_ok_err]
          exact h
      | some x => rfl
  | stashApplied a b e => exact h
  | changedFiles a e =>
      cases e with
      | none => exact h
      | some x => rfl
  | fileDiff a b e => exact h
  | stashCreated a e =>
      show ((handleStashCreated m a e r).1).err.isSome = true
      rw [handleStashCreated_err]
      exact h
  | workingDirectoryRestored a e =>
      show ((handleWorkingDirectoryRestored m a e).1).err.isSome = true
      rw [handleWorkingDirectoryRestored_err]
      exact h

theorem err_isSome_update (m : Model) (msg : Msg) (r : List Stash × Option String)
    (h : m.err.isSome = true) : ((update m msg r).1).err.isSome = true := by
  have hc := err_isSome_updateCore m msg r h
  unfold update
  split
  · next a b heq =>
      rw [heq] at hc
      exact hc
  · next a b heq =>
      rw [heq] at hc
      rw [applyWidgets_err]
      exact hc

theorem applyWidgets_modal_ne (m : Model) (msg : Msg)
    (h : m.activeModal ≠ ModalType.none) : applyWidgets m msg = m := by
  unfold applyWidgets
  rw [if_neg h]

theorem update_not_early (m : Model) (msg : Msg) (r : List Stash × Option String)
    (hflag : (updateCore m msg r).2.2 = false) :
    update m msg r = (applyWidgets (updateCore m msg r).1 msg, (updateCore m msg r).2.1) := by
  unfold update
  split
  · next a b heq =>
      rw [heq] at hflag
      exact absurd hflag (by simp)
  · next a b heq =>
      rw [heq]

theorem update_early (m : Model) (msg : Msg) (r : List Stash × Option String)
    (hflag : (updateCore m msg r).2.2 = true) :
    update m msg r = ((updateCore m msg r).1, (updateCore m msg r).2.1) := by
  unfold update
  split
  · next a b heq =>
      rw [heq]
  · next a b heq =>
      rw [heq] at hflag
      exact absurd hflag (by simp)

/-- C8: the working-tree restore always runs the discard phase first; when
the discard phase fails the clean phase is never invoked (the result does
not depend on the clean phase's output or error) and the reported output
is the discard failure text only; when the discard phase succeeds the
clean phase's result is always reported with the combined output. -/
theorem packrat_c8_restore_two_phase (restoreOut cleanOut : String) (cleanErr : Option String) :
    (∀ e : String, restoreWorkingDirectory restoreOut (some e) cleanOut cleanErr =
        Msg.workingDirectoryRestored restoreOut (some e)) ∧
    restoreWorkingDirectory restoreOut Option.none cleanOut cleanErr =
      Msg.workingDirectoryRestored (restoreOut ++ cleanOut) cleanErr :=
  ⟨fun _ => rfl, rfl⟩

/-- C9 counterexample: the status line `"?? new.txt"` has both status
columns non-blank, yet `listChangedFiles` produces exactly one record
(the staged record is suppressed because the first column is `"?"`),
refuting the claim that such a line always yields two records. -/
theorem packrat_c9_counterexample :
    listChangedFiles ["?? new.txt"] = [FileChange.mk "new.txt" "?" false] ∧
    (listChangedFiles ["?? new.txt"]).length ≠ 2 := by
  decide

/-- C9 (amended): lines shorter than four characters are skipped; a line
whose first status column is non-blank and not `"?"` and whose second
column is blank yields exactly one staged record; a line with both
columns non-blank whose first column is not `"?"` yields two records, one
staged and one unstaged; a line whose first column is `"?"` yields only
the unstaged record when the second column is non-blank.  The quoted
scenario lines behave as the claim states. -/
theorem packrat_c9_status_parsing :
    (∀ line : String, line.length < 4 → parseStatusLine line = []) ∧
    (∀ line : String, ¬line.length < 4 →
      strSlice line 0 1 ≠ " " → strSlice line 0 1 ≠ "?" → strSlice line 1 2 = " " →
      parseStatusLine line =
        [FileChange.mk (strTrim (strFrom line 3)) (strSlice line 0 1) true]) ∧
    (∀ line : String, ¬line.length < 4 →
      strSlice line 0 1 ≠ " " → strSlice line 0 1 ≠ "?" → strSlice line 1 2 ≠ " " →
      parseStatusLine line =
        [FileChange.mk (strTrim (strFrom line 3)) (strSlice line 0 1) true,
         FileChange.mk (strTrim (strFrom line 3)) (strSlice line 1 2) false]) ∧
    (∀ line : String, ¬line.length < 4 →
      strSlice line 0 1 = "?" → strSlice line 1 2 ≠ " " →
      parseStatusLine line =
        [FileChange.mk (strTrim (strFrom line 3)) (strSlice line 1 2) false]) ∧
    listChangedFiles ["M  file.go"] = [FileChange.mk "file.go" "M" true] ∧
    listChangedFiles ["MM file.go"] =
      [FileChange.mk "file.go" "M" true, FileChange.mk "file.go" "M" false] := by
  refine ⟨?_, ?_, ?_, ?_, by decide, by decide⟩
  · intro line h
    unfold parseStatusLine
    rw [if_pos h]
  · intro line h h1 h2 h3
    unfold parseStatusLine
    rw [if_neg h]
    dsimp only
    rw [if_pos ⟨h1, h2⟩, if_neg (by simp [h3])]
    simp
  · intro line h h1 h2 h3
    unfold parseStatusLine
    rw [if_neg h]
    dsimp only
    rw [if_pos ⟨h1, h2⟩, if_pos h3]
    simp
  · intro line h h1 h2
    unfold parseStatusLine
    rw [if_neg h]
    dsimp only
    rw [if_neg (by simp [h1]), if_pos h2]
    simp

/-- C9 witness: the amended parsing facts evaluated at the concrete lines
`"abc"` (too short), `"M  file.go"`, `"MM file.go"` and `"?? new.txt"`. -/
theorem packrat_c9_witness :
    parseStatusLine "abc" = [] ∧
    parseStatusLine "M  file.go" = [FileChange.mk "file.go" "M" true] ∧
    parseStatusLine "MM file.go" =
      [FileChange.mk "file.go" "M" true, FileChange.mk "file.go" "M" false] ∧
    parseStatusLine "?? new.txt" = [FileChange.mk "new.txt" "?" false] := by
  refine ⟨?_, ?_, ?_, ?_⟩
  · exact packrat_c9_status_parsing.1 "abc" (by decide)
  · exact packrat_c9_status_parsing.2.1 "M  file.go"
      (by decide) (by decide) (by decide) (by decide)
  · exact packrat_c9_status_parsing.2.2.1 "MM file.go"
      (by decide) (by decide) (by decide) (by decide)
  · exact packrat_c9_status_parsing.2.2.2.1 "?? new.txt"
      (by decide) (by decide) (by decide)

/-- C10: a stash-creation success whose synchronous list refresh fails is
silently ignored: the stored error and the stash list (and both
viewports) are untouched, no command is dispatched, and the mode is still
switched to Explore with the three per-file maps cleared and loading
reset. -/
theorem packrat_c10_create_refresh_failure (m : Model) (out e : String) (ns : List Stash) :
    ((update m (Msg.stashCreated out Option.none) (ns, some e)).1.err = m.err) ∧
    ((update m (Msg.stashCreated out Option.none) (ns, some e)).1.stashList = m.stashList) ∧
    ((update m (Msg.stashCreated out Option.none) (ns, some e)).1.viewport = m.viewport) ∧
    ((update m (Msg.stashCreated out Option.none) (ns, some e)).1.buildViewport = m.buildViewport) ∧
    ((update m (Msg.stashCreated out Option.none) (ns, some e)).1.mode = Mode.explore) ∧
    ((update m (Msg.stashCreated out Option.none) (ns, some e)).1.selectedFiles = []) ∧
    ((update m (Msg.stashCreated out Option.none) (ns, some e)).1.expandedFiles = []) ∧
    ((update m (Msg.stashCreated out Option.none) (ns, some e)).1.fileDiffs = []) ∧
    ((update m (Msg.stashCreated out Option.none) (ns, some e)).1.loading = false) ∧
    ((update m (Msg.stashCreated out Option.none) (ns, some e)).2 = []) := by
  rw [update_not_early m (Msg.stashCreated out Option.none) (ns, some e) rfl]
  rw [applyWidgets_not_key _ _ (fun k h => Msg.noConfusion h)]
  exact ⟨rfl, rfl, rfl, rfl, rfl, rfl, rfl, rfl, rfl, rfl⟩

theorem updateCore_key (m : Model) (k : String) (r : List Stash × Option String) :
    updateCore m (Msg.key k) r = handleKey m k := rfl

theorem updateCore_stashDeleted (m : Model) (ref : String) (e : Option String)
    (r : List Stash × Option String) :
    updateCore m (Msg.stashDeleted ref e) r =
      ((handleStashDeleted m e r).1, (handleStashDeleted m e r).2, false) := rfl

/-- C7: with the StashMessage modal active, the confirm key with an empty
message changes nothing (no dispatch, modal stays open, state identical);
with a non-empty message it dispatches stash creation over the Selection
Set snapshot and the entered message, clears the input, closes the modal
and sets loading. -/
theorem packrat_c7_stash_message_validation (m : Model) (r : List Stash × Option String)
    (hmodal : m.activeModal = ModalType.stashMessage) :
    (m.stashInput.value = "" → update m (Msg.key "enter") r = (m, [])) ∧
    (m.stashInput.value ≠ "" →
      update m (Msg.key "enter") r =
        ({ m with
            activeModal := ModalType.none
            loading := true
            stashInput := m.stashInput.setValue "" },
         [Cmd.createStash (m.selectedFiles.map Prod.snd) m.stashInput.value])) := by
  have hk : handleKey m "enter" =
      (if m.stashInput.value ≠ "" then
        ({ m with
            activeModal := ModalType.none
            loading := true
            stashInput := m.stashInput.setValue "" },
         [Cmd.createStash (m.selectedFiles.map Prod.snd) m.stashInput.value], true)
      else (m, [], false)) := by
    unfold handleKey
    rw [hmodal]
    rfl
  constructor
  · intro hempty
    have hne : ¬(m.stashInput.value ≠ "") := by simp [hempty]
    have hcore : updateCore m (Msg.key "enter") r = (m, [], false) := by
      rw [updateCore_key, hk, if_neg hne]
    rw [update_not_early m (Msg.key "enter") r (by rw [hcore]), hcore]
    dsimp only
    rw [applyWidgets_modal_ne m _ (by rw [hmodal]; exact fun hh => ModalType.noConfusion hh)]
  · intro hnon
    have hcore : updateCore m (Msg.key "enter") r =
        ({ m with
            activeModal := ModalType.none
            loading := true
            stashInput := m.stashInput.setValue "" },
         [Cmd.createStash (m.selectedFiles.map Prod.snd) m.stashInput.value], true) := by
      rw [updateCore_key, hk, if_pos hnon]
    rw [update_early m (Msg.key "enter") r (by rw [hcore]), hcore]

/-- C7 witness: at the concrete StashMessage models, the empty message is
a strict no-op and the non-empty message dispatches creation over the
selected file. -/
theorem packrat_c7_witness :
    update mMsgModalEmpty (Msg.key "enter") ([], Option.none) = (mMsgModalEmpty, []) ∧
    (update mMsgModal (Msg.key "enter") ([], Option.none)).2 =
      [Cmd.createStash [sampleFile] "my stash"] := by
  constructor
  · exact (packrat_c7_stash_message_validation mMsgModalEmpty ([], Option.none) rfl).1 rfl
  · have h := (packrat_c7_stash_message_validation mMsgModal ([], Option.none) rfl).2
      (by decide)
    rw [h]
    decide

/-- C6: with no modal active, toggling the mode out of Build empties the
Selection Set, Expansion Set and Diff Cache unconditionally, and toggling
into Build dispatches a working-tree scan. -/
theorem packrat_c6_mode_toggle (m : Model) (r : List Stash × Option String)
    (hmodal : m.activeModal = ModalType.none) :
    (m.mode = Mode.build →
      ((update m (Msg.key "tab") r).1.mode = Mode.explore ∧
       (update m (Msg.key "tab") r).1.selectedFiles = [] ∧
       (update m (Msg.key "tab") r).1.expandedFiles = [] ∧
       (update m (Msg.key "tab") r).1.fileDiffs = [] ∧
       (update m (Msg.key "tab") r).2 = [])) ∧
    (m.mode = Mode.explore →
      ((update m (Msg.key "tab") r).1.mode = Mode.build ∧
       (update m (Msg.key "tab") r).2 = [Cmd.getChangedFiles])) := by
  constructor
  · intro hmode
    have hk : handleKey m "tab" =
        ({ m with
            mode := Mode.explore
            selectedFiles := []
            expandedFiles := []
            fileDiffs := [] }, [], false) := by
      unfold handleKey
      rw [hmode]
      rfl
    have hcore := (updateCore_key m "tab" r).trans hk
    rw [update_not_early m (Msg.key "tab") r (by rw [hcore]), hcore]
    dsimp only
    rw [applyWidgets_key_nonNav _ "tab" (by decide) (by decide) (by decide) (by decide)]
    exact ⟨rfl, rfl, rfl, rfl, rfl⟩
  · intro hmode
    have hk : handleKey m "tab" =
        ({ m with mode := Mode.build }, [Cmd.getChangedFiles], true) := by
      unfold handleKey
      rw [hmode]
      rfl
    have hcore := (updateCore_key m "tab" r).trans hk
    rw [update_early m (Msg.key "tab") r (by rw [hcore]), hcore]
    exact ⟨rfl, rfl⟩

/-- C6 witness: toggling out of Build at a model with non-empty per-file
maps empties all three; toggling into Build at the Explore fixture
dispatches the scan. -/
theorem packrat_c6_witness :
    ((update mBuildSel (Msg.key "tab") ([], Option.none)).1.selectedFiles = [] ∧
     (update mBuildSel (Msg.key "tab") ([], Option.none)).1.mode = Mode.explore) ∧
    (update mBase (Msg.key "tab") ([], Option.none)).2 = [Cmd.getChangedFiles] := by
  refine ⟨⟨?_, ?_⟩, ?_⟩
  · exact ((packrat_c6_mode_toggle mBuildSel ([], Option.none) rfl).1 rfl).2.1
  · exact ((packrat_c6_mode_toggle mBuildSel ([], Option.none) rfl).1 rfl).1
  · exact ((packrat_c6_mode_toggle mBase ([], Option.none) rfl).2 rfl).2

/-- C5: a successful drop completion (with a successful synchronous list
refresh) replaces the widget items with exactly the re-fetched backend
list and clamps the cursor; if stashes remain the single dispatched
command is a diff fetch for the entry of the NEW list at the clamped
index, and if none remain no fetch is dispatched and the panel shows the
no-stashes message. -/
theorem packrat_c5_drop_refresh (m : Model) (ref : String) (ns : List Stash) :
    ((update m (Msg.stashDeleted ref Option.none) (ns, Option.none)).1.stashList.items = ns) ∧
    ((update m (Msg.stashDeleted ref Option.none) (ns, Option.none)).1.stashList.index =
      min m.stashList.index (ns.length - 1)) ∧
    (ns = [] →
      (update m (Msg.stashDeleted ref Option.none) (ns, Option.none)).2 = [] ∧
      (update m (Msg.stashDeleted ref Option.none) (ns, Option.none)).1.viewport.content =
        "(no stashes)") ∧
    (ns ≠ [] →
      (update m (Msg.stashDeleted ref Option.none) (ns, Option.none)).2 =
        [Cmd.getStashDiff ((ns[min m.stashList.index (ns.length - 1)]?.getD default).ref)] ∧
      (update m (Msg.stashDeleted ref Option.none) (ns, Option.none)).1.viewport =
        m.viewport) := by
  cases ns with
  | nil =>
      have hstep : handleStashDeleted m Option.none ([], Option.none) =
          ({ m with
              stashList := m.stashList.setItems []
              viewport := m.viewport.setContent "(no stashes)" }, []) := by
        unfold handleStashDeleted
        rfl
      have hcore : updateCore m (Msg.stashDeleted ref Option.none) ([], Option.none) =
          ({ m with
              stashList := m.stashList.setItems []
              viewport := m.viewport.setContent "(no stashes)" }, [], false) := by
        rw [updateCore_stashDeleted, hstep]
      rw [update_not_early m (Msg.stashDeleted ref Option.none) ([], Option.none)
        (by rw [hcore]), hcore]
      dsimp only
      rw [applyWidgets_not_key _ _ (fun k h => Msg.noConfusion h)]
      exact ⟨rfl, rfl, fun _ => ⟨rfl, rfl⟩, fun hne => absurd rfl hne⟩
  | cons s0 tl =>
      have hstep : handleStashDeleted m Option.none (s0 :: tl, Option.none) =
          ({ m with stashList := m.stashList.setItems (s0 :: tl) },
           [Cmd.getStashDiff
             (((m.stashList.setItems (s0 :: tl)).selectedItem?.getD default).ref)]) := by
        unfold handleStashDeleted
        dsimp only
        rw [if_pos (by simp [ListWidget.setItems])]
      have hcore : updateCore m (Msg.stashDeleted ref Option.none) (s0 :: tl, Option.none) =
          ({ m with stashList := m.stashList.setItems (s0 :: tl) },
           [Cmd.getStashDiff
             (((m.stashList.setItems (s0 :: tl)).selectedItem?.getD default).ref)], false) := by
        rw [updateCore_stashDeleted, hstep]
      rw [update_not_early m (Msg.stashDeleted ref Option.none) (s0 :: tl, Option.none)
        (by rw [hcore]), hcore]
      dsimp only
      rw [applyWidgets_not_key _ _ (fun k h => Msg.noConfusion h)]
      exact ⟨rfl, rfl, fun hnil => List.noConfusion hnil, fun _ => ⟨rfl, rfl⟩⟩

/-- C5 witness: dropping the first of two stashes with a refreshed
one-entry list fetches the diff of the remaining entry at the clamped
index, and a refresh to the empty list shows the no-stashes message. -/
theorem packrat_c5_witness :
    (update mBase (Msg.stashDeleted "stash@{0}" Option.none)
        ([sampleStash1], Option.none)).2 = [Cmd.getStashDiff "stash@{1}"] ∧
    (update mBase (Msg.stashDeleted "stash@{0}" Option.none)
        ([], Option.none)).1.viewport.content = "(no stashes)" := by
  constructor
  · exact (((packrat_c5_drop_refresh mBase "stash@{0}" [sampleStash1]).2.2.2
      (by decide)).1).trans (by decide)
  · exact ((packrat_c5_drop_refresh mBase "stash@{0}" []).2.2.1 rfl).2

/-- C1 counterexample: a file-diff completion for the path `"a.go"`,
which is absent from the Selection Set, is NOT a state-preserving no-op:
it creates a Diff Cache entry for that path, refuting the claim that no
map entry is created or modified. -/
theorem packrat_c1_counterexample :
    mapLookup (initialModel [] Option.none).selectedFiles "a.go" = Option.none ∧
    (initialModel [] Option.none).fileDiffs = [] ∧
    (update (initialModel [] Option.none) (Msg.fileDiff "a.go" "DIFF" Option.none)
        ([], Option.none)).1.fileDiffs = [("a.go", "DIFF")] := by
  decide

/-- C1 (amended): processing a file-diff completion for a path no longer
in the Selection Set raises no error and leaves the Selection Set, the
Expansion Set and the stored error unchanged, but it unconditionally
writes the diff into the Diff Cache under the event's own path, creating
or updating that entry; no command is dispatched. -/
theorem packrat_c1_stale_diff (m : Model) (path d : String) (r : List Stash × Option String)
    (hstale : mapLookup m.selectedFiles path = Option.none) :
    ((update m (Msg.fileDiff path d Option.none) r).1.selectedFiles = m.selectedFiles) ∧
    ((update m (Msg.fileDiff path d Option.none) r).1.expandedFiles = m.expandedFiles) ∧
    ((update m (Msg.fileDiff path d Option.none) r).1.err = m.err) ∧
    ((update m (Msg.fileDiff path d Option.none) r).1.fileDiffs =
      mapInsert m.fileDiffs path d) ∧
    ((update m (Msg.fileDiff path d Option.none) r).2 = []) := by
  rw [update_not_early m (Msg.fileDiff path d Option.none) r rfl]
  rw [applyWidgets_not_key _ _ (fun k h => Msg.noConfusion h)]
  exact ⟨rfl, rfl, rfl, rfl, rfl⟩

/-- C1 witness: the amended statement evaluated at the empty initial
model and the stale path `"a.go"`. -/
theorem packrat_c1_witness :
    ((update (initialModel [] Option.none) (Msg.fileDiff "a.go" "DIFF" Option.none)
        ([], Option.none)).1.fileDiffs =
      mapInsert (initialModel [] Option.none).fileDiffs "a.go" "DIFF") ∧
    ((update (initialModel [] Option.none) (Msg.fileDiff "a.go" "DIFF" Option.none)
        ([], Option.none)).1.selectedFiles = (initialModel [] Option.none).selectedFiles) :=
  ⟨(packrat_c1_stale_diff (initialModel [] Option.none) "a.go" "DIFF"
      ([], Option.none) rfl).2.2.2.1,
   (packrat_c1_stale_diff (initialModel [] Option.none) "a.go" "DIFF"
      ([], Option.none) rfl).1⟩

theorem update_modal_key_frame (m : Model) (k : String) (r : List Stash × Option String)
    (hmodal : m.activeModal ≠ ModalType.none) (hk : k ≠ "tab") :
    ((update m (Msg.key k) r).1.mode = m.mode ∧
     (update m (Msg.key k) r).1.stashList = m.stashList ∧
     (update m (Msg.key k) r).1.viewport = m.viewport ∧
     (update m (Msg.key k) r).1.fileList = m.fileList ∧
     (update m (Msg.key k) r).1.buildViewport = m.buildViewport) := by
  by_cases hq : k = "ctrl+c" ∨ k = "q"
  · have hhk : handleKey m k = ({ m with activeModal := ModalType.none }, [], false) := by
      unfold handleKey
      rw [if_pos hq, if_pos hmodal]
    have hcore := (updateCore_key m k r).trans hhk
    rw [update_not_early m (Msg.key k) r (by rw [hcore]), hcore]
    dsimp only
    have hwid : applyWidgets { m with activeModal := ModalType.none } (Msg.key k) =
        { m with activeModal := ModalType.none } := by
      rcases hq with hq | hq <;> subst hq <;>
        exact applyWidgets_key_nonNav _ _ (by decide) (by decide) (by decide) (by decide)
    rw [hwid]
    exact ⟨rfl, rfl, rfl, rfl, rfl⟩
  · cases hm : m.activeModal with
    | none => exact absurd hm hmodal
    | deleteConfirm =>
        by_cases hy : k = "y" ∨ k = "Y"
        · have hhk : handleKey m k =
              ({ m with activeModal := ModalType.none }, [Cmd.dropStash m.selectedRef], true) := by
            unfold handleKey
            simp [hm, hq, hk, hy]
          have hcore := (updateCore_key m k r).trans hhk
          rw [update_early m (Msg.key k) r (by rw [hcore]), hcore]
          exact ⟨rfl, rfl, rfl, rfl, rfl⟩
        · by_cases hn : k = "n" ∨ k = "N" ∨ k = "esc"
          · have hhk : handleKey m k = ({ m with activeModal := ModalType.none }, [], false) := by
              unfold handleKey
              simp [hm, hq, hk, hy, hn]
            have hcore := (updateCore_key m k r).trans hhk
            rw [update_not_early m (Msg.key k) r (by rw [hcore]), hcore]
            dsimp only
            have hwid : applyWidgets { m with activeModal := ModalType.none } (Msg.key k) =
                { m with activeModal := ModalType.none } := by
              rcases hn with hn | hn | hn <;> subst hn <;>
                exact applyWidgets_key_nonNav _ _ (by decide) (by decide) (by decide) (by decide)
            rw [hwid]
            exact ⟨rfl, rfl, rfl, rfl, rfl⟩
          · have hhk : handleKey m k = (m, [], false) := by
              unfold handleKey
              simp [hm, hq, hk, hy, hn]
            have hcore := (updateCore_key m k r).trans hhk
            rw [update_not_early m (Msg.key k) r (by rw [hcore]), hcore]
            dsimp only
            rw [applyWidgets_modal_ne m _ (by rw [hm]; exact fun hh => ModalType.noConfusion hh)]
            exact ⟨rfl, rfl, rfl, rfl, rfl⟩
    | applyConfirm =>
        by_cases hy : k = "y" ∨ k = "Y"
        · have hhk : handleKey m k =
              ({ m with activeModal := ModalType.none, loading := true },
               [Cmd.applyStash m.selectedRef], true) := by
            unfold handleKey
            simp [hm, hq, hk, hy]
          have hcore := (updateCore_key m k r).trans hhk
          rw [update_early m (Msg.key k) r (by rw [hcore]), hcore]
          exact ⟨rfl, rfl, rfl, rfl, rfl⟩
        · by_cases hn : k = "n" ∨ k = "N" ∨ k = "esc"
          · have hhk : handleKey m k = ({ m with activeModal := ModalType.none }, [], false) := by
              unfold handleKey
              simp [hm, hq, hk, hy, hn]
            have hcore := (updateCore_key m k r).trans hhk
            rw [update_not_early m (Msg.key k) r (by rw [hcore]), hcore]
            dsimp only
            have hwid : applyWidgets { m with activeModal := ModalType.none } (Msg.key k) =
                { m with activeModal := ModalType.none } := by
              rcases hn with hn | hn | hn <;> subst hn <;>
                exact applyWidgets_key_nonNav _ _ (by decide) (by decide) (by decide) (by decide)
            rw [hwid]
            exact ⟨rfl, rfl, rfl, rfl, rfl⟩
          · have hhk : handleKey m k = (m, [], false) := by
              unfold handleKey
              simp [hm, hq, hk, hy, hn]
            have hcore := (updateCore_key m k r).trans hhk
            rw [update_not_early m (Msg.key k) r (by rw [hcore]), hcore]
            dsimp only
            rw [applyWidgets_modal_ne m _ (by rw [hm]; exact fun hh => ModalType.noConfusion hh)]
            exact ⟨rfl, rfl, rfl, rfl, rfl⟩
    | restoreConfirm =>
        by_cases hy : k = "y" ∨ k = "Y"
        · have hhk : handleKey m k =
              ({ m with activeModal := ModalType.none, loading := true },
               [Cmd.restoreWorkingDirectory], true) := by
            unfold handleKey
            simp [hm, hq, hk, hy]
          have hcore := (updateCore_key m k r).trans hhk
          rw [update_early m (Msg.key k) r (by rw [hcore]), hcore]
          exact ⟨rfl, rfl, rfl, rfl, rfl⟩
        · by_cases hn : k = "n" ∨ k = "N" ∨ k = "esc"
          · have hhk : handleKey m k = ({ m with activeModal := ModalType.none }, [], false) := by
              unfold handleKey
              simp [hm, hq, hk, hy, hn]
            have hcore := (updateCore_key m k r).trans hhk
            rw [update_not_early m (Msg.key k) r (by rw [hcore]), hcore]
            dsimp only
            have hwid : applyWidgets { m with activeModal := ModalType.none } (Msg.key k) =
                { m with activeModal := ModalType.none } := by
              rcases hn with hn | hn | hn <;> subst hn <;>
                exact applyWidgets_key_nonNav _ _ (by decide) (by decide) (by decide) (by decide)
            rw [hwid]
            exact ⟨rfl, rfl, rfl, rfl, rfl⟩
          · have hhk : handleKey m k = (m, [], false) := by
              unfold handleKey
              simp [hm, hq, hk, hy, hn]
            have hcore := (updateCore_key m k r).trans hhk
            rw [update_not_early m (Msg.key k) r (by rw [hcore]), hcore]
            dsimp only
            rw [applyWidgets_modal_ne m _ (by rw [hm]; exact fun hh => ModalType.noConfusion hh)]
            exact ⟨rfl, rfl, rfl, rfl, rfl⟩
    | stashMessage =>
        by_cases he : k = "enter"
        · subst he
          by_cases hval : m.stashInput.value = ""
          · have hhk : handleKey m "enter" = (m, [], false) := by
              unfold handleKey
              rw [hm]
              rw [if_neg (show ¬(m.stashInput.value ≠ "") by simp [hval])]
              rfl
            have hcore := (updateCore_key m "enter" r).trans hhk
            rw [update_not_early m (Msg.key "enter") r (by rw [hcore]), hcore]
            dsimp only
            rw [applyWidgets_modal_ne m _ (by rw [hm]; exact fun hh => ModalType.noConfusion hh)]
            exact ⟨rfl, rfl, rfl, rfl, rfl⟩
          · have hhk : handleKey m "enter" =
                ({ m with
                    activeModal := ModalType.none
                    loading := true
                    stashInput := m.stashInput.setValue "" },
                 [Cmd.createStash (m.selectedFiles.map Prod.snd) m.stashInput.value], true) := by
              unfold handleKey
              rw [hm]
              rw [if_pos (show m.stashInput.value ≠ "" from hval)]
              rfl
            have hcore := (updateCore_key m "enter" r).trans hhk
            rw [update_early m (Msg.key "enter") r (by rw [hcore]), hcore]
            exact ⟨rfl, rfl, rfl, rfl, rfl⟩
        · by_cases hesc : k = "esc"
          · subst hesc
            have hhk : handleKey m "esc" =
                ({ m with activeModal := ModalType.none, stashInput := m.stashInput.setValue "" },
                 [], false) := by
              unfold handleKey
              rw [hm]
              rfl
            have hcore := (updateCore_key m "esc" r).trans hhk
            rw [update_not_early m (Msg.key "esc") r (by rw [hcore]), hcore]
            dsimp only
            rw [applyWidgets_key_nonNav _ "esc" (by decide) (by decide) (by decide) (by decide)]
            exact ⟨rfl, rfl, rfl, rfl, rfl⟩
          · have hhk : handleKey m k =
                ({ m with stashInput := m.stashInput.update k }, [], true) := by
              unfold handleKey
              simp [hm, hq, hk, he, hesc]
            have hcore := (updateCore_key m k r).trans hhk
            rw [update_early m (Msg.key k) r (by rw [hcore]), hcore]
            exact ⟨rfl, rfl, rfl, rfl, rfl⟩

theorem update_modal_tab (m : Model) (r : List Stash × Option String)
    (hmodal : m.activeModal ≠ ModalType.none) :
    ((update m (Msg.key "tab") r).1.mode =
       (if m.mode = Mode.explore then Mode.build else Mode.explore)) ∧
    ((update m (Msg.key "tab") r).1.activeModal = m.activeModal) ∧
    ((update m (Msg.key "tab") r).1.stashList = m.stashList) ∧
    ((update m (Msg.key "tab") r).1.viewport = m.viewport) ∧
    ((update m (Msg.key "tab") r).1.fileList = m.fileList) ∧
    ((update m (Msg.key "tab") r).1.buildViewport = m.buildViewport) := by
  cases hmode : m.mode with
  | explore =>
      have hhk : handleKey m "tab" =
          ({ m with mode := Mode.build }, [Cmd.getChangedFiles], true) := by
        unfold handleKey
        rw [hmode]
        rfl
      have hcore := (updateCore_key m "tab" r).trans hhk
      rw [update_early m (Msg.key "tab") r (by rw [hcore]), hcore]
      refine ⟨?_, rfl, rfl, rfl, rfl, rfl⟩
      simp [hmode]
  | build =>
      have hhk : handleKey m "tab" =
          ({ m with
              mode := Mode.explore
              selectedFiles := []
              expandedFiles := []
              fileDiffs := [] }, [], false) := by
        unfold handleKey
        rw [hmode]
        rfl
      have hcore := (updateCore_key m "tab" r).trans hhk
      rw [update_not_early m (Msg.key "tab") r (by rw [hcore]), hcore]
      dsimp only
      rw [applyWidgets_modal_ne _ (Msg.key "tab") (by exact hmodal)]
      refine ⟨?_, rfl, rfl, rfl, rfl, rfl⟩
      simp [hmode]

theorem update_stashMessage_unconsumed (m : Model) (k : String)
    (r : List Stash × Option String)
    (hm : m.activeModal = ModalType.stashMessage)
    (h1 : k ≠ "ctrl+c") (h2 : k ≠ "q") (h3 : k ≠ "tab") (h4 : k ≠ "enter") (h5 : k ≠ "esc") :
    update m (Msg.key k) r = ({ m with stashInput := m.stashInput.update k }, []) := by
  have hhk : handleKey m k = ({ m with stashInput := m.stashInput.update k }, [], true) := by
    unfold handleKey
    simp [hm, h1, h2, h3, h4, h5]
  have hcore := (updateCore_key m k r).trans hhk
  rw [update_early m (Msg.key k) r (by rw [hcore]), hcore]

/-- C4 counterexample: with the delete-confirm modal open, pressing Tab
switches the mode to Build while the modal stays open — the mode-toggle
case precedes the modal cases in the key switch — refuting the claim that
the mode field is unchanged by every key event while a modal is active. -/
theorem packrat_c4_counterexample :
    mDelModal.activeModal = ModalType.deleteConfirm ∧
    mDelModal.mode = Mode.explore ∧
    (update mDelModal (Msg.key "tab") ([], Option.none)).1.mode = Mode.build ∧
    (update mDelModal (Msg.key "tab") ([], Option.none)).1.activeModal =
      ModalType.deleteConfirm := by
  decide

/-- C4 (amended): while a modal is active, every key other than the mode
toggle leaves the mode and the underlying list and diff-panel widgets
unchanged; the mode-toggle key, however, switches the mode even while a
modal is active (the modal stays open and the widgets are still
untouched); during the StashMessage modal the keys not consumed by the
quit, toggle, confirm or cancel cases reach only the text field. -/
theorem packrat_c4_modal_focus (m : Model) (k : String) (r : List Stash × Option String)
    (hmodal : m.activeModal ≠ ModalType.none) :
    (k ≠ "tab" →
      ((update m (Msg.key k) r).1.mode = m.mode ∧
       (update m (Msg.key k) r).1.stashList = m.stashList ∧
       (update m (Msg.key k) r).1.viewport = m.viewport ∧
       (update m (Msg.key k) r).1.fileList = m.fileList ∧
       (update m (Msg.key k) r).1.buildViewport = m.buildViewport)) ∧
    ((update m (Msg.key "tab") r).1.mode =
        (if m.mode = Mode.explore then Mode.build else Mode.explore) ∧
     (update m (Msg.key "tab") r).1.activeModal = m.activeModal ∧
     (update m (Msg.key "tab") r).1.stashList = m.stashList ∧
     (update m (Msg.key "tab") r).1.viewport = m.viewport ∧
     (update m (Msg.key "tab") r).1.fileList = m.fileList ∧
     (update m (Msg.key "tab") r).1.buildViewport = m.buildViewport) ∧
    (m.activeModal = ModalType.stashMessage →
      k ≠ "ctrl+c" → k ≠ "q" → k ≠ "tab" → k ≠ "enter" → k ≠ "esc" →
      update m (Msg.key k) r = ({ m with stashInput := m.stashInput.update k }, [])) :=
  ⟨fun hk => update_modal_key_frame m k r hmodal hk,
   update_modal_tab m r hmodal,
   fun hm h1 h2 h3 h4 h5 => update_stashMessage_unconsumed m k r hm h1 h2 h3 h4 h5⟩

/-- C4 witness: at the delete-confirm fixture, the key `x` leaves the
mode unchanged and Tab leaves the modal open; at the StashMessage
fixture, `x` goes only to the text field. -/
theorem packrat_c4_witness :
    ((update mDelModal (Msg.key "x") ([], Option.none)).1.mode = mDelModal.mode) ∧
    ((update mDelModal (Msg.key "tab") ([], Option.none)).1.activeModal =
      mDelModal.activeModal) ∧
    (update mMsgModal (Msg.key "x") ([], Option.none) =
      ({ mMsgModal with stashInput := mMsgModal.stashInput.update "x" }, [])) := by
  refine ⟨?_, ?_, ?_⟩
  · exact ((packrat_c4_modal_focus mDelModal "x" ([], Option.none) (by decide)).1
      (by decide)).1
  · exact (packrat_c4_modal_focus mDelModal "tab" ([], Option.none) (by decide)).2.1.2.1
  · exact (packrat_c4_modal_focus mMsgModal "x" ([], Option.none) (by decide)).2.2 rfl
      (by decide) (by decide) (by decide) (by decide) (by decide)

/-- C2 counterexample: after the (settled) processing of a stale file-diff
completion, the Diff Cache holds the key `"b.go"` while the Selection Set
does not — the key sets do not match, refuting the claim that the three
maps always have matching key sets after any transition settles. -/
theorem packrat_c2_counterexample :
    mapLookup ((update (initialModel [] Option.none) (Msg.fileDiff "b.go" "D" Option.none)
        ([], Option.none)).1).fileDiffs "b.go" = some "D" ∧
    mapLookup ((update (initialModel [] Option.none) (Msg.fileDiff "b.go" "D" Option.none)
        ([], Option.none)).1).selectedFiles "b.go" = Option.none := by
  decide

/-- C2 (amended): initially, and preserved by every transition, every key
of the Expansion Set is a key of the Selection Set, and deselecting a
file removes its entry from all three maps; the Diff Cache, however, may
acquire keys outside the Selection Set when a stale file-diff completion
arrives, so its inclusion in the Selection Set is not invariant. -/
theorem packrat_c2_invariant :
    (∀ (stashes : List Stash) (err : Option String), ExpSubsetSel (initialModel stashes err)) ∧
    (∀ (m : Model) (msg : Msg) (r : List Stash × Option String),
      ExpSubsetSel m → ExpSubsetSel (update m msg r).1) ∧
    (∀ (m : Model) (f : FileChange) (r : List Stash × Option String),
      m.activeModal = ModalType.none → m.mode = Mode.build →
      m.fileList.selectedItem? = some f →
      (mapLookup m.selectedFiles f.path).isSome = true →
      (mapLookup ((update m (Msg.key "enter") r).1).selectedFiles f.path = Option.none ∧
       mapLookup ((update m (Msg.key "enter") r).1).expandedFiles f.path = Option.none ∧
       mapLookup ((update m (Msg.key "enter") r).1).fileDiffs f.path = Option.none)) := by
  refine ⟨fun _ _ p hp => Bool.noConfusion hp, expSubsetSel_update, ?_⟩
  intro m f r hmodal hmode hsel hsome
  obtain ⟨v, hv⟩ := Option.isSome_iff_exists.mp hsome
  have hb1 : (handleBuildSelect m "enter" f).1.selectedFiles =
      mapErase m.selectedFiles f.path := by
    unfold handleBuildSelect
    dsimp only
    rw [hv]
    rfl
  have hb2 : (handleBuildSelect m "enter" f).1.expandedFiles =
      mapErase m.expandedFiles f.path := by
    unfold handleBuildSelect
    dsimp only
    rw [hv]
    rfl
  have hb3 : (handleBuildSelect m "enter" f).1.fileDiffs =
      mapErase m.fileDiffs f.path := by
    unfold handleBuildSelect
    dsimp only
    rw [hv]
    rfl
  have hbflag : (handleBuildSelect m "enter" f).2.2 = false := by
    unfold handleBuildSelect
    dsimp only
    rw [hv]
    rfl
  have hkey : handleKey m "enter" = handleBuildSelect m "enter" f := by
    unfold handleKey handleBuildKey
    rw [hmodal, hmode, hsel]
    rfl
  have hcore := (updateCore_key m "enter" r).trans hkey
  have hflag : (updateCore m (Msg.key "enter") r).2.2 = false := by
    rw [hcore]
    exact hbflag
  rw [update_not_early m (Msg.key "enter") r hflag, hcore]
  dsimp only
  refine ⟨?_, ?_, ?_⟩
  · rw [applyWidgets_selectedFiles, hb1, mapLookup_erase_self]
  · rw [applyWidgets_expandedFiles, hb2, mapLookup_erase_self]
  · rw [applyWidgets_fileDiffs, hb3, mapLookup_erase_self]

/-- C2 witness: at the Build-mode fixture with `f.go` selected, expanded
and cached, the deselect key removes all three entries, and a transition
(space toggle) on a state satisfying the expansion-subset invariant keeps
the invariant, instantiated at the path `f.go`. -/
theorem packrat_c2_witness :
    mapLookup ((update mBuildSel (Msg.key "enter") ([], Option.none)).1).selectedFiles
      "f.go" = Option.none ∧
    mapLookup ((update mBuildSel (Msg.key "enter") ([], Option.none)).1).expandedFiles
      "f.go" = Option.none ∧
    mapLookup ((update mBuildSel (Msg.key "enter") ([], Option.none)).1).fileDiffs
      "f.go" = Option.none ∧
    (mapLookup ((update mBuildSel (Msg.key " ") ([], Option.none)).1).selectedFiles
      "f.go").isSome = true := by
  have hExp : ExpSubsetSel mBuildSel := by
    intro p hp
    by_cases hpk : "f.go" = p
    · simp [mapLookup, hpk]
    · simp [mBuildSel, mBase, initialModel, mapLookup, hpk] at hp
  have hdesel := packrat_c2_invariant.2.2 mBuildSel sampleFile ([], Option.none)
    rfl rfl rfl (by decide)
  exact ⟨hdesel.1, hdesel.2.1, hdesel.2.2,
    packrat_c2_invariant.2.1 mBuildSel (Msg.key " ") ([], Option.none) hExp "f.go" (by decide)⟩

/-- C3 counterexample: a drop failure is not surfaced as panel text with
the normal UI still rendering — it is stored in the error field, and the
next render is the persistent full-screen error view, exactly as for a
bootstrap failure, refuting the claim that only a first-list-load failure
behaves that way. -/
theorem packrat_c3_counterexample :
    mBase.err = Option.none ∧
    (update mBase (Msg.stashDeleted "stash@{0}" (some "drop failed"))
        ([], Option.none)).1.err = some "drop failed" ∧
    view (update mBase (Msg.stashDeleted "stash@{0}" (some "drop failed"))
        ([], Option.none)).1 = "Error: drop failed\n" := by
  decide

/-- C3 (amended): apply, create, restore, stash-diff and file-diff
failures leave the stored error untouched and are surfaced only as text
in the relevant panel (so the normal body keeps rendering); a drop
failure or a working-tree scan failure instead stores the error, and a
stored error is never cleared by any later transition and makes `view`
render the full-screen error line. -/
theorem packrat_c3_failure_surfacing (m : Model) (hne : m.err = Option.none) :
    (∀ ref out e r, (update m (Msg.stashApplied ref out (some e)) r).1.err = Option.none ∧
      (update m (Msg.stashApplied ref out (some e)) r).1.viewport.content =
        "Error applying stash:\n\n" ++ out) ∧
    (∀ out e r, (update m (Msg.stashCreated out (some e)) r).1.err = Option.none ∧
      (update m (Msg.stashCreated out (some e)) r).1.buildViewport.content =
        "Error creating stash:\n\n" ++ out) ∧
    (∀ out e r, (update m (Msg.workingDirectoryRestored out (some e)) r).1.err =
        Option.none ∧
      (update m (Msg.workingDirectoryRestored out (some e)) r).1.buildViewport.content =
        "Error restoring working directory:\n\n" ++ out) ∧
    (∀ ref d e r, (update m (Msg.stashDiff ref d (some e)) r).1.err = Option.none ∧
      (update m (Msg.stashDiff ref d (some e)) r).1.viewport.content =
        "Error loading diff: " ++ e) ∧
    (∀ p d e r, (update m (Msg.fileDiff p d (some e)) r).1.err = Option.none ∧
      mapLookup (update m (Msg.fileDiff p d (some e)) r).1.fileDiffs p =
        some ("Error loading diff: " ++ e)) ∧
    (∀ ref e r, (update m (Msg.stashDeleted ref (some e)) r).1.err = some e) ∧
    (∀ fs e r, (update m (Msg.changedFiles fs (some e)) r).1.err = some e) ∧
    (∀ (m' : Model) (msg : Msg) (r : List Stash × Option String),
      m'.err.isSome = true → ((update m' msg r).1.err).isSome = true) ∧
    view m = viewBody m ∧
    (∀ (m' : Model) (e : String), m'.err = some e → view m' = "Error: " ++ e ++ "\n") := by
  refine ⟨?_, ?_, ?_, ?_, ?_, ?_, ?_, ?_, ?_, ?_⟩
  · intro ref out e r
    rw [update_not_early m (Msg.stashApplied ref out (some e)) r rfl]
    rw [applyWidgets_not_key _ _ (fun k h => Msg.noConfusion h)]
    exact ⟨hne, rfl⟩
  · intro out e r
    rw [update_not_early m (Msg.stashCreated out (some e)) r rfl]
    rw [applyWidgets_not_key _ _ (fun k h => Msg.noConfusion h)]
    exact ⟨hne, rfl⟩
  · intro out e r
    rw [update_not_early m (Msg.workingDirectoryRestored out (some e)) r rfl]
    rw [applyWidgets_not_key _ _ (fun k h => Msg.noConfusion h)]
    exact ⟨hne, rfl⟩
  · intro ref d e r
    rw [update_not_early m (Msg.stashDiff ref d (some e)) r rfl]
    rw [applyWidgets_not_key _ _ (fun k h => Msg.noConfusion h)]
    exact ⟨hne, rfl⟩
  · intro p d e r
    rw [update_not_early m (Msg.fileDiff p d (some e)) r rfl]
    rw [applyWidgets_not_key _ _ (fun k h => Msg.noConfusion h)]
    refine ⟨hne, ?_⟩
    have hfd : (handleFileDiff m p d (some e)).fileDiffs =
        mapInsert m.fileDiffs p ("Error loading diff: " ++ e) := rfl
    show mapLookup (handleFileDiff m p d (some e)).fileDiffs p = _
    rw [hfd, mapLookup_insert_self]
  · intro ref e r
    rw [update_not_early m (Msg.stashDeleted ref (some e)) r rfl]
    rw [applyWidgets_not_key _ _ (fun k h => Msg.noConfusion h)]
    rfl
  · intro fs e r
    rw [update_not_early m (Msg.changedFiles fs (some e)) r rfl]
    rw [applyWidgets_not_key _ _ (fun k h => Msg.noConfusion h)]
    rfl
  · exact err_isSome_update
  · unfold view
    rw [hne]
  · intro m' e h'
    unfold view
    rw [h']

/-- C3 witness: at the two-stash fixture, an apply failure keeps the
stored error empty and writes the failure text into the diff panel,
while a drop failure stores the error; the stored error then persists
across a further key event. -/
theorem packrat_c3_witness :
    ((update mBase (Msg.stashApplied "stash@{0}" "conflict" (some "exit 1"))
        ([], Option.none)).1.err = Option.none) ∧
    ((update mBase (Msg.stashApplied "stash@{0}" "conflict" (some "exit 1"))
        ([], Option.none)).1.viewport.content = "Error applying stash:\n\nconflict") ∧
    ((update mBase (Msg.stashDeleted "stash@{0}" (some "boom"))
        ([], Option.none)).1.err = some "boom") ∧
    (((update (update mBase (Msg.stashDeleted "stash@{0}" (some "boom")) ([], Option.none)).1
        (Msg.key "a") ([], Option.none)).1.err).isSome = true) := by
  refine ⟨?_, ?_, ?_, ?_⟩
  · exact ((packrat_c3_failure_surfacing mBase rfl).1 "stash@{0}" "conflict" "exit 1"
      ([], Option.none)).1
  · exact ((packrat_c3_failure_surfacing mBase rfl).1 "stash@{0}" "conflict" "exit 1"
      ([], Option.none)).2
  · exact (packrat_c3_failure_surfacing mBase rfl).2.2.2.2.2.1 "stash@{0}" "boom"
      ([], Option.none)
  · exact (packrat_c3_failure_surfacing mBase rfl).2.2.2.2.2.2.2.1 _ (Msg.key "a")
      ([], Option.none) (by decide)
